import Mathlib

/-!
Verification development for the PCC tool gateway: shallow embedding of the
sensitive-content scanner, proposal store, approval protocol and dispatch
layer (src/server.js and the ProposalStore module), with theorems checking
the natural-language specification against the embedded code.
-/

namespace PCC

/-! ### JavaScript value model

Argument payloads are arbitrary nested JS values.  `JVal` models the values
that can occur in a tool call's `arguments`; object fields are kept as an
insertion-ordered association list, matching JS object key order. -/

inductive JVal where
  | undef
  | jnull
  | str (s : String)
  | num (n : Int)
  | jbool (b : Bool)
  | arr (xs : List JVal)
  | obj (fields : List (String × JVal))

def JVal.isUndef : JVal → Bool
  | .undef => true
  | _ => false

/-- String escaping done by JSON.stringify on string values (quote,
backslash, and the common control characters). -/
def jsonEscapeChar (c : Char) : String :=
  if c = Char.ofNat 34 then "\\" ++ String.singleton (Char.ofNat 34)
  else if c = Char.ofNat 92 then "\\\\"
  else if c = Char.ofNat 10 then "\\n"
  else if c = Char.ofNat 9 then "\\t"
  else if c = Char.ofNat 13 then "\\r"
  else String.singleton c

def jsonEscape (s : String) : String :=
  s.data.foldr (fun c acc => jsonEscapeChar c ++ acc) ""

mutual

/-- Embedding of JSON.stringify restricted to `JVal`.  As in JS,
`undefined` fields of an object are skipped, and `undefined` inside an
array serializes as null. -/
def jsonStringify : JVal → String
  | .undef => "null"
  | .jnull => "null"
  | .str s => "\x22" ++ jsonEscape s ++ "\x22"
  | .num n => toString n
  | .jbool b => if b then "true" else "false"
  | .arr xs => "[" ++ String.intercalate "," (jsonStringifyList xs) ++ "]"
  | .obj fields => "\x7b" ++ String.intercalate "," (jsonStringifyFields fields) ++ "\x7d"

def jsonStringifyList : List JVal → List String
  | [] => []
  | x :: xs => jsonStringify x :: jsonStringifyList xs

def jsonStringifyFields : List (String × JVal) → List String
  | [] => []
  | (k, v) :: rest =>
      if v.isUndef then jsonStringifyFields rest
      else ("\x22" ++ jsonEscape k ++ "\x22:" ++ jsonStringify v) :: jsonStringifyFields rest

end

/-! ### Regular-expression engine

The scanner's patterns are fixed JS regular expressions.  `RE` is regex
syntax restricted to what those patterns use: character classes,
concatenation, alternation, star over a character class, and the
zero-width word boundary.  `reMatch` is a backtracking matcher that
enumerates every way a regex can match a prefix of the input; it carries
the previously consumed character so that word boundaries can be decided.
Existence semantics make greedy/lazy distinctions irrelevant, so lazy
quantifiers in the source patterns are embedded as the same bounded
repetitions. -/

inductive RE where
  | eps
  | cls (p : Char → Bool)
  | cat (a b : RE)
  | alt (a b : RE)
  | starCls (p : Char → Bool)
  | wb

/-- Digit class of JS regex (\d). -/
def isDigitChar (c : Char) : Bool := 48 ≤ c.val && c.val ≤ 57

/-- Word characters of JS regex (the class \w). -/
def isWordChar (c : Char) : Bool :=
  (97 ≤ c.val && c.val ≤ 122) ||
  (65 ≤ c.val && c.val ≤ 90) ||
  (48 ≤ c.val && c.val ≤ 57) ||
  c.val = 95

/-- JS regex whitespace class \s (ASCII part). -/
def isWsChar (c : Char) : Bool :=
  c = Char.ofNat 32 || c = Char.ofNat 9 || c = Char.ofNat 10 ||
  c = Char.ofNat 13 || c = Char.ofNat 11 || c = Char.ofNat 12

/-- Word boundary test between the previously consumed character and the
rest of the input (string edges count as non-word). -/
def atBoundary (prev : Option Char) (rest : List Char) : Bool :=
  let pw := match prev with | none => false | some c => isWordChar c
  let nw := match rest with | [] => false | c :: _ => isWordChar c
  pw != nw

/-- All ways a starred character class can consume a prefix. -/
def starCand (p : Char → Bool) : Option Char → List Char → List (Option Char × List Char)
  | prev, [] => [(prev, [])]
  | prev, c :: s => (prev, c :: s) :: (if p c then starCand p (some c) s else [])

/-- Backtracking matcher: all (last consumed char, remaining input) states
after the regex matches a prefix of the input. -/
def reMatch : RE → Option Char → List Char → List (Option Char × List Char)
  | .eps, prev, s => [(prev, s)]
  | .cls _, _, [] => []
  | .cls p, _, c :: s => if p c then [(some c, s)] else []
  | .cat a b, prev, s => (reMatch a prev s).flatMap (fun st => reMatch b st.1 st.2)
  | .alt a b, prev, s => reMatch a prev s ++ reMatch b prev s
  | .starCls p, prev, s => starCand p prev s
  | .wb, prev, s => if atBoundary prev s then [(prev, s)] else []

/-- Unanchored search: does the regex match starting at some position? -/
def reSearch : RE → Option Char → List Char → Bool
  | r, prev, [] => !(reMatch r prev []).isEmpty
  | r, prev, c :: s => !(reMatch r prev (c :: s)).isEmpty || reSearch r (some c) s

/-- RegExp.prototype.test. -/
def reTest (r : RE) (s : String) : Bool := reSearch r none s.data

/-! Pattern building blocks. -/

/-- Never-matching regex (base of alternation folds). -/
def never : RE := .cls (fun _ => false)

def altsFold (rs : List RE) : RE := rs.foldr .alt never

/-- Case-insensitive single character (the i flag of the source patterns). -/
def clsCI (c : Char) : RE := .cls (fun d => d.toLower = c)

/-- Case-insensitive literal over a character list. -/
def litCIChars (cs : List Char) : RE := cs.foldr (fun c r => .cat (clsCI c) r) .eps

def litCI (s : String) : RE := litCIChars s.data

def reDigit : RE := .cls isDigitChar

/-- Exact repetition of a character class: p{n}. -/
def repExactCls (p : Char → Bool) : Nat → RE
  | 0 => .eps
  | n + 1 => .cat (.cls p) (repExactCls p n)

/-- Bounded repetition of a character class: p{0,n}. -/
def upToCls (p : Char → Bool) : Nat → RE
  | 0 => .eps
  | n + 1 => .alt .eps (.cat (.cls p) (upToCls p n))

/-- Range repetition p{lo,hi} as p{lo} followed by p{0,hi-lo}. -/
def repRangeCls (p : Char → Bool) (lo hi : Nat) : RE :=
  .cat (repExactCls p lo) (upToCls p (hi - lo))

/-- One-or-more repetition of a character class: p+. -/
def plusCls (p : Char → Bool) : RE := .cat (.cls p) (.starCls p)

def isSpaceDash (c : Char) : Bool := c = Char.ofNat 32 || c = Char.ofNat 45

def isSlashDash (c : Char) : Bool := c = Char.ofNat 47 || c = Char.ofNat 45

def dashCh : RE := .cls (fun c => c = Char.ofNat 45)

/-! ### Content scanner (src/server.js, PHI/PII/PFI firewall)

Each definition mirrors one source regular expression. -/

/-- CREDIT_CARD_PATTERN: \b(?:\d[ -]*?)\x7b13,19\x7d\b. -/
def creditCardPat : RE :=
  .cat .wb (.cat (repRange13to19 ()) .wb)
where
  unitRE (_ : Unit) : RE := .cat reDigit (.starCls isSpaceDash)
  repRange13to19 (_ : Unit) : RE :=
    .cat (List.foldr (fun _ r => .cat (unitRE ()) r) .eps (List.range 13))
         (List.foldr (fun _ r => .alt .eps (.cat (unitRE ()) r)) .eps (List.range 6))

/-- Pattern \bpolicy\s*#?\s*\d+\b (i flag). -/
def policyPat : RE :=
  .cat .wb (.cat (litCI "policy")
    (.cat (.starCls isWsChar)
      (.cat (.alt (.cls (fun c => c = Char.ofNat 35)) .eps)
        (.cat (.starCls isWsChar) (.cat (plusCls isDigitChar) .wb)))))

/-- Pattern \bdriver'?s\s*license\b (i flag). -/
def driversLicensePat : RE :=
  .cat .wb (.cat (litCI "driver")
    (.cat (.alt (.cls (fun c => c = Char.ofNat 39)) .eps)
      (.cat (clsCI (Char.ofNat 115))
        (.cat (.starCls isWsChar) (.cat (litCI "license") .wb)))))

/-- Pattern \bpassport\b (i flag). -/
def passportPat : RE := .cat .wb (.cat (litCI "passport") .wb)

/-- Pattern \bmedical\b|\bdiagnos(?:is|es)\b|\btreatment\b|\bhealth\s*record\b (i flag). -/
def medicalPat : RE :=
  .alt (.cat .wb (.cat (litCI "medical") .wb))
    (.alt (.cat .wb (.cat (litCI "diagnos") (.cat (.alt (litCI "is") (litCI "es")) .wb)))
      (.alt (.cat .wb (.cat (litCI "treatment") .wb))
        (.cat .wb (.cat (litCI "health")
          (.cat (.starCls isWsChar) (.cat (litCI "record") .wb))))))

def PHI_PATTERNS : List RE :=
  [creditCardPat, policyPat, driversLicensePat, passportPat, medicalPat]

def DOB_KEYWORDS : List String := ["dob", "date of birth", "birth date", "born"]

def SSN_KEYWORDS : List String := ["ssn", "social security", "social security number"]

/-- DOB_DATE_PATTERN \b\d\x7b1,2\x7d[\/\-]\d\x7b1,2\x7d[\/\-]\d\x7b2,4\x7d\b,
kept as its (single-element) top-level alternation list because
hasKeywordProximity concatenates pattern sources textually. -/
def dobDateAlts : List RE :=
  [.cat .wb (.cat (repRangeCls isDigitChar 1 2)
    (.cat (.cls isSlashDash) (.cat (repRangeCls isDigitChar 1 2)
      (.cat (.cls isSlashDash) (.cat (repRangeCls isDigitChar 2 4) .wb)))))]

/-- SSN_NUMBER_PATTERN \b\d\x7b3\x7d-\d\x7b2\x7d-\d\x7b4\x7d\b|\b\d\x7b9\x7d\b
as its two top-level alternatives. -/
def ssnDashed : RE :=
  .cat .wb (.cat (repExactCls isDigitChar 3)
    (.cat dashCh (.cat (repExactCls isDigitChar 2)
      (.cat dashCh (.cat (repExactCls isDigitChar 4) .wb)))))

def ssnNine : RE := .cat .wb (.cat (repExactCls isDigitChar 9) .wb)

def ssnNumberAlts : List RE := [ssnDashed, ssnNine]

/-- Window [\s\S]\x7b0,w\x7d between keyword and value. -/
def windowRE (w : Nat) : RE := upToCls (fun _ => true) w

/-- Forward proximity regex built in the source as the string
kwEsc ++ window ++ valuePattern.source: because alternation binds loosest,
the keyword-and-window prefix attaches only to the FIRST top-level
alternative of the value pattern. -/
def forwardRE (kw : String) (w : Nat) (valueAlts : List RE) : RE :=
  match valueAlts with
  | [] => never
  | v :: rest => altsFold ((RE.cat (litCI kw) (.cat (windowRE w) v)) :: rest)

/-- Backward proximity regex valuePattern.source ++ window ++ kwEsc: the
window-and-keyword suffix attaches only to the LAST top-level
alternative. -/
def backwardRE (kw : String) (w : Nat) (valueAlts : List RE) : RE :=
  match valueAlts with
  | [] => litCI kw
  | [v] => RE.cat v (.cat (windowRE w) (litCI kw))
  | v :: rest => .alt v (backwardRE kw w rest)

/-- Embedding of hasKeywordProximity (window defaults to 24 at call
sites). -/
def hasKeywordProximity (text : String) (keywords : List String)
    (valueAlts : List RE) (w : Nat) : Bool :=
  if text = "" then false
  else keywords.any (fun kw =>
    reTest (forwardRE kw w valueAlts) text || reTest (backwardRE kw w valueAlts) text)

/-- Embedding of containsSensitiveText. -/
def containsSensitiveText (text : String) : Bool :=
  if text = "" then false
  else if PHI_PATTERNS.any (fun rx => reTest rx text) then true
  else if hasKeywordProximity text DOB_KEYWORDS dobDateAlts 24 then true
  else if hasKeywordProximity text SSN_KEYWORDS ssnNumberAlts 24 then true
  else false

/-- Embedding of containsSensitivePayload: JSON.stringify(payload ?? then
scan the text (an inductive payload is always serializable, so the
catch-return-false branch is unreachable here). -/
def containsSensitivePayload (payload : JVal) : Bool :=
  containsSensitiveText
    (jsonStringify (match payload with
      | .undef => .obj []
      | .jnull => .obj []
      | p => p))

/-! BEARER_RE from the ProposalStore module: \bBearer\s+[\w\-\.=:_]+\b
(i flag).  In the source it is used only by the redaction helpers, not by
the scanner. -/

def isBearerBodyChar (c : Char) : Bool :=
  isWordChar c || c = Char.ofNat 45 || c = Char.ofNat 46 ||
  c = Char.ofNat 61 || c = Char.ofNat 58

def bearerPat : RE :=
  .cat .wb (.cat (litCI "bearer")
    (.cat (plusCls isWsChar) (.cat (plusCls isBearerBodyChar) .wb)))

/-! ### Keyed association-list maps

JS Map and plain-object stores are embedded as insertion-ordered
association lists with string keys. -/

def pLookup {α : Type} : List (String × α) → String → Option α
  | [], _ => none
  | (k, v) :: rest, key => if k = key then some v else pLookup rest key

def pErase {α : Type} (st : List (String × α)) (key : String) : List (String × α) :=
  st.filter (fun kv => !(kv.1 = key : Bool))

/-! ### ProposalStore module (src/unnamed/part_001)

State is the Map of stored proposal records; timestamps are
milliseconds as naturals and the clock is passed explicitly. -/

structure StoredProposal where
  proposal_id : String
  tool : String
  args : JVal
  params_hash : String
  summary : String
  createdAt : Nat
  expiresAt : Nat
  status : String

/-- ProposalStore cleanup: delete every record with expiresAt <= now. -/
def psCleanup (now : Nat) (s : List StoredProposal) : List StoredProposal :=
  s.filter (fun p => !(decide (p.expiresAt ≤ now)))

def psFind (s : List StoredProposal) (pid : String) : Option StoredProposal :=
  match s with
  | [] => none
  | p :: rest => if p.proposal_id = pid then some p else psFind rest pid

/-- ProposalStore.get: runs cleanup first, then looks the id up; returns
the result together with the mutated store. -/
def psGet (now : Nat) (s : List StoredProposal) (pid : String) :
    Option StoredProposal × List StoredProposal :=
  let s' := psCleanup now s
  (psFind s' pid, s')

/-- Map.set on an existing key, as used by ProposalStore.approve after
mutating the record's status field. -/
def psSetStatus (s : List StoredProposal) (pid : String) (status : String) :
    List StoredProposal :=
  s.map (fun q => if q.proposal_id = pid then { q with status := status } else q)

/-- Return value of ProposalStore.approve: null, the proposal (expired
or rejected branches), or the result of execFn applied to the approved
proposal. -/
inductive PsApproveResult where
  | nullRes
  | proposalRes (p : StoredProposal)
  | execRes (p : StoredProposal)

/-- Embedding of ProposalStore.approve: get (with its lazy cleanup),
then the expired / rejected / approved branches, each of which
re-stores the record with its new status — no branch deletes it.  The
third component records whether execFn was invoked. -/
def psApprove (now : Nat) (s : List StoredProposal) (pid : String)
    (approveBool : Bool) : PsApproveResult × List StoredProposal × Bool :=
  let g := psGet now s pid
  match g.1 with
  | none => (.nullRes, g.2, false)
  | some p =>
    if p.expiresAt ≤ now then
      (.proposalRes { p with status := "expired" },
       psSetStatus g.2 pid "expired", false)
    else if !approveBool then
      (.proposalRes { p with status := "rejected" },
       psSetStatus g.2 pid "rejected", false)
    else
      (.execRes { p with status := "approved" },
       psSetStatus g.2 pid "approved", true)

/-- Snapshot document written by ProposalStore persist: an updatedAt
stamp plus the sequence of proposal records. -/
structure Snapshot where
  updatedAt : String
  proposals : List StoredProposal

/-- ProposalStore persist produces the snapshot of all current records. -/
def psPersist (s : List StoredProposal) (ts : String) : Snapshot :=
  { updatedAt := ts, proposals := s }

/-- ProposalStore load: keep a record only if it has a truthy (nonempty)
proposal_id and expiresAt > now. -/
def psLoad (now : Nat) : Option Snapshot → List StoredProposal
  | none => []
  | some snap =>
      snap.proposals.filter
        (fun p => (!(p.proposal_id = "" : Bool)) && decide (now < p.expiresAt))

/-- File-system model for safeWriteJson: the destination file and its
temporary sibling, each either absent or holding a complete snapshot
document (writeFileSync writes the tmp file, renameSync replaces the
destination with it). -/
structure FSState where
  main : Option Snapshot
  tmp : Option Snapshot

def fsWriteTmp (fs : FSState) (d : Snapshot) : FSState := { fs with tmp := some d }

def fsRenameTmp (fs : FSState) : FSState :=
  { main := fs.tmp, tmp := none }

/-- safeWriteJson: write the document to the tmp path, then rename the
tmp path over the destination. -/
def safeWriteJson (fs : FSState) (d : Snapshot) : FSState :=
  fsRenameTmp (fsWriteTmp fs d)

/-! ### Approval gating state in src/server.js -/

/-- Proposal record of the server.js in-memory proposalStore Map (note:
it carries no status field; terminal proposals are simply deleted). -/
structure SrvProposal where
  proposalId : String
  toolName : String
  args : JVal
  paramsHash : String
  summary : String
  expiresAt : Nat

/-- server.js proposalStore: a Map from proposal id to proposal. -/
abbrev PStore : Type := List (String × SrvProposal)

/-- cleanupProposals: drop every proposal with expiresAt <= now. -/
def cleanupProposals (now : Nat) (st : PStore) : PStore :=
  st.filter (fun kv => !(decide (kv.2.expiresAt ≤ now)))

/-- Sweep interval used by both setInterval call sites:
Math.max(10000, Math.floor(ttlMs / 2)). -/
def sweepIntervalMs (ttlMs : Nat) : Nat := max 10000 (ttlMs / 2)

/-- JS truthiness on the embedded values. -/
def jsFalsy : JVal → Bool
  | .undef => true
  | .jnull => true
  | .jbool b => !b
  | .num n => n = 0
  | .str s => s = ""
  | _ => false

/-- Property access args?.[key]: none models undefined. -/
def jGet (v : JVal) (k : String) : Option JVal :=
  match v with
  | .obj fields => pLookup fields k
  | _ => none

/-- Test for args?.[key] === undefined || === null || === ''. -/
def isMissingField (v : Option JVal) : Bool :=
  match v with
  | none => true
  | some .undef => true
  | some .jnull => true
  | some (.str s) => s = ""
  | some _ => false

/-- Embedding of validateRequiredFields (the required list is
tool?.inputSchema?.required || []). -/
def validateRequiredFields (required : List String) (args : JVal) : List String :=
  required.filter (fun key => isMissingField (jGet args key))

/-- Embedding of summarizeArgs: non-object (or falsy) arguments give
"no parameters"; otherwise the keys are joined in object insertion
order.  Arrays are JS objects whose keys are the index strings. -/
def summarizeArgs (args : JVal) : String :=
  match args with
  | .obj kvs =>
      if kvs.isEmpty then "no parameters"
      else "fields: " ++ String.intercalate ", " (kvs.map (fun kv => kv.1))
  | .arr xs =>
      if xs.isEmpty then "no parameters"
      else "fields: " ++ String.intercalate ", " ((List.range xs.length).map toString)
  | _ => "no parameters"

/-- Static configuration and collaborators of the dispatch layer.  The
SHA-256 content hash and the fresh UUID supply are injected (hash values
and ids are opaque to every property proved here). -/
structure ServerCtx where
  allowedTools : List String
  writeTools : List String
  toolsCatalog : List (String × List String)
  writeToolEndpoints : List (String × (String × String))
  dryRun : Bool
  ttlMs : Nat
  hashParams : JVal → String

/-- Embedding of createProposal (the fresh crypto.randomUUID value is
passed in as pid). -/
def createProposal (ctx : ServerCtx) (now : Nat) (pid : String)
    (toolName : String) (args : JVal) : SrvProposal :=
  { proposalId := pid
    toolName := toolName
    args := args
    paramsHash := ctx.hashParams args
    summary := toolName ++ " (" ++ summarizeArgs args ++ ")"
    expiresAt := now + ctx.ttlMs }

/-- Outcome of awaiting a tool handler: a result value, a result carrying
an error field, or a thrown exception. -/
inductive ExecOutcome where
  | ok (v : JVal)
  | errRes (msg : String) (status : Nat)
  | threw

/-- Result of handleTool. -/
inductive ToolResult where
  | errorRes (msg : String) (status : Nat)
  | dryRunValidated (meta : String × String)
  | proposed (proposal_id tool params_hash summary : String) (expires_at : Nat)
  | handlerOk (v : JVal)

/-- WRITE_TOOL_ENDPOINTS lookup with the source's default meta. -/
def writeToolMeta (ctx : ServerCtx) (toolName : String) : String × String :=
  match pLookup ctx.writeToolEndpoints toolName with
  | some m => m
  | none => ("POST", toolName)

/-- Embedding of handleTool: allowlist check, catalog lookup, dry-run
validation, write-tool validation and proposal creation, and read-tool
handler invocation (whose awaited outcome is the execOut argument). -/
def handleTool (ctx : ServerCtx) (now : Nat) (pid : String) (execOut : ExecOutcome)
    (toolName : String) (args : JVal) (st : PStore) : ToolResult × PStore :=
  if !(ctx.allowedTools.contains toolName) then
    (.errorRes ("Tool not available: " ++ toolName ++ " is not in the allowed tool catalog") 404, st)
  else
    match pLookup ctx.toolsCatalog toolName with
    | none => (.errorRes ("Unknown tool: " ++ toolName) 404, st)
    | some required =>
      if ctx.dryRun && ctx.writeTools.contains toolName then
        let missing := validateRequiredFields required args
        if !missing.isEmpty then
          (.errorRes ("Missing required fields: " ++ String.intercalate ", " missing) 400, st)
        else (.dryRunValidated (writeToolMeta ctx toolName), st)
      else if ctx.writeTools.contains toolName then
        let missing := validateRequiredFields required args
        if !missing.isEmpty then
          (.errorRes ("Missing required fields: " ++ String.intercalate ", " missing) 400, st)
        else
          let p := createProposal ctx now pid toolName args
          (.proposed p.proposalId toolName p.paramsHash p.summary p.expiresAt, st ++ [(pid, p)])
      else
        match execOut with
        | .ok v => (.handlerOk v, st)
        | .errRes msg status => (.errorRes msg status, st)
        | .threw => (.errorRes "Internal server error" 500, st)

/-- Outcome of the best-effort follow-up task creation
(createFollowupTaskInternal): a result whose ok field is the Bool, or a
thrown exception. -/
inductive FollowupOutcome where
  | okRes (ok : Bool)
  | threw

/-- Embedding of triggerFirewallTask, returning the task_created flag:
dry-run skips the follow-up; a throw is swallowed as task_created =
false. -/
def triggerFirewallTask (dryRun : Bool) (outcome : FollowupOutcome) : Bool :=
  if dryRun then false
  else match outcome with
    | .okRes b => b
    | .threw => false

def firewallMessageCreated : String :=
  "I can’t accept or process medical or sensitive financial details here. A follow-up task has been created so a licensed team member can reach out directly."

def firewallMessageFailed : String :=
  "I can’t accept or process medical or sensitive financial details here. I couldn’t create the follow-up task automatically. Please follow up manually."

structure FirewallResponse where
  status : String
  reason : String
  task_created : Bool
  message : String

/-- Embedding of buildFirewallResponse. -/
def buildFirewallResponse (taskCreated : Bool) : FirewallResponse :=
  { status := "blocked_sensitive"
    reason := "phi_pii_detected"
    task_created := taskCreated
    message := if taskCreated then firewallMessageCreated else firewallMessageFailed }

/-- Embedding of handleSensitiveFirewall. -/
def handleSensitiveFirewall (dryRun : Bool) (outcome : FollowupOutcome) : FirewallResponse :=
  buildFirewallResponse (triggerFirewallTask dryRun outcome)

/-- Result of the tools/call method branch of mcpPostHandler. -/
inductive CallResult where
  | invalidParams (msg : String)
  | blockedContent (r : FirewallResponse)
  | toolRes (r : ToolResult)

/-- Embedding of the tools/call branch of mcpPostHandler: name check,
then the PHI/PII firewall over the raw arguments, then handleTool on
args || an empty object. -/
def toolsCall (ctx : ServerCtx) (followup : FollowupOutcome) (now : Nat) (pid : String)
    (execOut : ExecOutcome) (name : String) (args : JVal) (st : PStore) :
    CallResult × PStore :=
  if name = "" then (.invalidParams "Invalid params: tool name required", st)
  else if containsSensitivePayload args then
    (.blockedContent (handleSensitiveFirewall ctx.dryRun followup), st)
  else
    let r := handleTool ctx now pid execOut name (if jsFalsy args then .obj [] else args) st
    (.toolRes r.1, r.2)

/-- Result of the tools/approve method branch of mcpPostHandler. -/
inductive ApproveResult where
  | invalidParams (msg : String)
  | errNotFound
  | errExpired
  | rejected (proposal_id : String)
  | dryRunApproved (proposal_id : String)
  | errToolGone
  | execError (msg : String) (status : Nat)
  | execOk (v : JVal)

/-- Embedding of the tools/approve branch of mcpPostHandler.  The third
component records whether the tool handler was invoked (the execOut
argument is the awaited outcome of that invocation, with a throw caught
as an internal 500 error).  On the execute path the proposal is deleted
from the store regardless of the execution outcome. -/
def toolsApprove (ctx : ServerCtx) (now : Nat) (st : PStore) (pid : String)
    (approve : Bool) (execOut : ExecOutcome) : ApproveResult × PStore × Bool :=
  if pid = "" then (.invalidParams "Invalid params: proposal_id required", st, false)
  else
    match pLookup st pid with
    | none => (.errNotFound, st, false)
    | some p =>
      if p.expiresAt ≤ now then (.errExpired, pErase st pid, false)
      else if !approve then (.rejected pid, pErase st pid, false)
      else if ctx.dryRun then (.dryRunApproved pid, st, false)
      else
        match pLookup ctx.toolsCatalog p.toolName with
        | none => (.errToolGone, pErase st pid, false)
        | some _ =>
          match execOut with
          | .ok v => (.execOk v, pErase st pid, true)
          | .errRes msg status => (.execError msg status, pErase st pid, true)
          | .threw => (.execError "Internal server error" 500, pErase st pid, true)

/-! ### Concrete configuration (src/server.js constants) -/

def ALLOWED_TOOLS : List String :=
  ["contacts_search", "contacts_upsert", "contacts_update_status",
   "calendars_list", "calendar_free_slots", "calendar_list_appointments",
   "calendar_create_appointment", "calendar_reschedule_appointment",
   "calendar_cancel_appointment", "conversations_list_threads",
   "conversations_get_thread", "conversations_send_message",
   "conversations_send_new_email", "conversations_report",
   "locations_tags_list", "locations_tags_create", "locations_tags_delete",
   "tasks_list", "tasks_create", "tasks_complete"]

def WRITE_TOOLS : List String :=
  ["contacts_upsert", "contacts_update_status", "calendar_create_appointment",
   "calendar_reschedule_appointment", "calendar_cancel_appointment",
   "locations_tags_create", "locations_tags_delete", "tasks_create",
   "tasks_complete", "conversations_send_message", "conversations_send_new_email"]

/-- Name and inputSchema.required list of every entry of the TOOLS
catalog (tools whose schema has no required array contribute the
fallback empty list). -/
def TOOLS_REQUIRED : List (String × List String) :=
  [("contacts_search", ["query"]),
   ("contacts_upsert", ["firstName", "lastName"]),
   ("contacts_update_status", ["contactId"]),
   ("calendars_list", []),
   ("calendar_free_slots", ["calendarId", "startDateTime", "endDateTime"]),
   ("calendar_list_appointments", ["calendarId", "startDateTime", "endDateTime"]),
   ("calendar_create_appointment",
     ["calendarId", "contactId", "title", "startDateTime", "endDateTime"]),
   ("calendar_reschedule_appointment",
     ["appointmentId", "newStartDateTime", "newEndDateTime"]),
   ("calendar_cancel_appointment", ["appointmentId"]),
   ("locations_tags_list", []),
   ("locations_tags_create", ["name"]),
   ("locations_tags_delete", ["tagId"]),
   ("conversations_report", []),
   ("tasks_list", []),
   ("tasks_create", ["title", "dueDateTime"]),
   ("tasks_complete", ["taskId"]),
   ("conversations_list_threads", []),
   ("conversations_get_thread", ["threadId"]),
   ("conversations_send_message", ["threadId", "message"]),
   ("conversations_send_new_email", ["message"])]

def WRITE_TOOL_ENDPOINTS : List (String × (String × String)) :=
  [("contacts_upsert", ("POST", "/contacts or /contacts/(id)")),
   ("contacts_update_status", ("PUT", "/contacts/(contactId)")),
   ("calendar_create_appointment", ("POST", "/calendars/events/appointments")),
   ("calendar_reschedule_appointment", ("PUT", "/appointments/(id)")),
   ("calendar_cancel_appointment", ("PUT", "/appointments/(id)/cancel")),
   ("locations_tags_create", ("POST", "/locations/(id)/tags")),
   ("locations_tags_delete", ("DELETE", "/locations/(id)/tags/(tagId)")),
   ("tasks_create", ("POST", "/contacts/(contactId)/tasks")),
   ("tasks_complete", ("PUT", "/tasks/(taskId)/complete")),
   ("conversations_send_message", ("POST", "/conversations/messages")),
   ("conversations_send_new_email", ("POST", "/conversations/messages"))]

/-- Stand-in for the SHA-256 JSON content hash, used only to build
concrete witness configurations; no property proved in this file
depends on hash values. -/
def hashStub (v : JVal) : String := "sha256:" ++ jsonStringify v

/-- Concrete server configuration (PROPOSAL_TTL_MS defaults to 5 minutes). -/
def serverCtx (dryRun : Bool) : ServerCtx :=
  { allowedTools := ALLOWED_TOOLS
    writeTools := WRITE_TOOLS
    toolsCatalog := TOOLS_REQUIRED
    writeToolEndpoints := WRITE_TOOL_ENDPOINTS
    dryRun := dryRun
    ttlMs := 300000
    hashParams := hashStub }

/-! ### Helper lemmas -/

lemma pLookup_pErase_self {α : Type} (st : List (String × α)) (key : String) :
    pLookup (pErase st key) key = none := by
  induction st with
  | nil => rfl
  | cons kv rest ih =>
      by_cases h : kv.1 = key
      · simpa [pErase, List.filter_cons, h] using ih
      · simpa [pErase, List.filter_cons, h, pLookup] using ih

lemma psFind_eq_none (s : List StoredProposal) (pid : String)
    (h : ∀ q ∈ s, ¬ q.proposal_id = pid) : psFind s pid = none := by
  induction s with
  | nil => rfl
  | cons p rest ih =>
      have hp : ¬ p.proposal_id = pid := h p (by simp)
      simp only [psFind, if_neg hp]
      exact ih (fun q hq => h q (by simp [hq]))

/-! ### Claim theorems -/

/-- Concrete pending record used to evaluate ProposalStore.approve. -/
def c1rec : StoredProposal :=
  { proposal_id := "p1", tool := "tasks_create", args := JVal.obj [],
    params_hash := "h", summary := "s", createdAt := 0,
    expiresAt := 1000, status := "pending" }

/-- Claim C1: evaluating the cited ProposalStore.approve at a concrete
failing input contradicts the claim.  The first approve(p1, true)
invokes execFn and leaves the record stored with terminal status
approved instead of deleting it; a second approve(p1, true) before
expiry finds it again and re-invokes execFn (execution twice, not
not-found), and an approve(p1, false) after the terminal transition
flips the status to rejected.  (The server map handler in tools/approve
does satisfy the claim by deleting the record; see the following
theorem.) -/
theorem approve_reexecutes :
    (psApprove 500 [c1rec] "p1" true).2.2 = true ∧
    psFind (psApprove 500 [c1rec] "p1" true).2.1 "p1" =
      some { c1rec with status := "approved" } ∧
    (psApprove 600 (psApprove 500 [c1rec] "p1" true).2.1 "p1" true).2.2 = true ∧
    psFind (psApprove 600 (psApprove 500 [c1rec] "p1" true).2.1 "p1" false).2.1 "p1" =
      some { c1rec with status := "rejected" } :=
  ⟨rfl, rfl, rfl, rfl⟩

/-- The live resolve path: once the server map handler has retired a
proposal — in particular after one resolve(id, true) call completed,
whatever the execution outcome — a later resolve(id, *) call returns
not-found without invoking the tool handler, so execution happens at
most once per proposal there (deletion from the store is what makes the
record's state unchangeable afterwards). -/
theorem resolve_at_most_once (ctx : ServerCtx) (now : Nat) (st : PStore)
    (pid : String) (p : SrvProposal) (execOut : ExecOutcome)
    (hdry : ctx.dryRun = false) (hpid : ¬ pid = "")
    (hfound : pLookup st pid = some p) (hlive : ¬ p.expiresAt ≤ now)
    (hcat : ∃ req, pLookup ctx.toolsCatalog p.toolName = some req) :
    (toolsApprove ctx now st pid true execOut).2.2 = true ∧
    pLookup (toolsApprove ctx now st pid true execOut).2.1 pid = none ∧
    (∀ (now2 : Nat) (b : Bool) (e2 : ExecOutcome),
      toolsApprove ctx now2 (toolsApprove ctx now st pid true execOut).2.1 pid b e2 =
        (.errNotFound, (toolsApprove ctx now st pid true execOut).2.1, false)) := by
  obtain ⟨req, hreq⟩ := hcat
  have hstore : (toolsApprove ctx now st pid true execOut).2.1 = pErase st pid := by
    cases execOut <;> simp [toolsApprove, hpid, hfound, hlive, hdry, hreq]
  refine ⟨?_, ?_, ?_⟩
  · cases execOut <;> simp [toolsApprove, hpid, hfound, hlive, hdry, hreq]
  · rw [hstore]; exact pLookup_pErase_self st pid
  · intro now2 b e2
    rw [hstore]
    simp [toolsApprove, hpid, pLookup_pErase_self]

/-- Concrete pending proposal and store for the server-handler theorem's
concrete instance. -/
def wProposal : SrvProposal :=
  { proposalId := "p1", toolName := "tasks_create",
    args := JVal.obj [("title", JVal.str "T")], paramsHash := "h",
    summary := "s", expiresAt := 1000 }

def wStore : PStore := [("p1", wProposal)]

/-- Concrete instance of the server-handler at-most-once theorem. -/
theorem resolve_at_most_once_witness :
    ((serverCtx false).dryRun = false ∧ ¬ "p1" = "" ∧
     pLookup wStore "p1" = some wProposal ∧ ¬ wProposal.expiresAt ≤ 500) ∧
    ((toolsApprove (serverCtx false) 500 wStore "p1" true (.ok .jnull)).2.2 = true ∧
     pLookup (toolsApprove (serverCtx false) 500 wStore "p1" true (.ok .jnull)).2.1 "p1" = none ∧
     (∀ (now2 : Nat) (b : Bool) (e2 : ExecOutcome),
       toolsApprove (serverCtx false) now2
          (toolsApprove (serverCtx false) 500 wStore "p1" true (.ok .jnull)).2.1 "p1" b e2 =
         (.errNotFound,
          (toolsApprove (serverCtx false) 500 wStore "p1" true (.ok .jnull)).2.1, false))) :=
  ⟨⟨rfl, by simp, rfl, by decide⟩,
    resolve_at_most_once (serverCtx false) 500 wStore "p1" wProposal (.ok .jnull)
      rfl (by simp) rfl (by decide) ⟨["title", "dueDateTime"], rfl⟩⟩

/-- Claim C2: once now is at or past a record's expiresAt, the
ProposalStore get returns not-found and the expired record is eagerly
removed by that read, without waiting for the background sweep. -/
theorem get_lazy_expiry (now : Nat) (s : List StoredProposal) (pid : String)
    (hexp : ∀ q ∈ s, q.proposal_id = pid → q.expiresAt ≤ now) :
    (psGet now s pid).1 = none ∧
    (∀ q ∈ (psGet now s pid).2, ¬ q.proposal_id = pid) := by
  have hmem : ∀ q ∈ psCleanup now s, ¬ q.proposal_id = pid := by
    intro q hq hid
    have := List.mem_filter.mp hq
    have hlt : ¬ q.expiresAt ≤ now := by simpa using this.2
    exact hlt (hexp q this.1 hid)
  exact ⟨psFind_eq_none _ _ hmem, hmem⟩

/-- Concrete stored record used by the C2 witness. -/
def c2rec : StoredProposal :=
  { proposal_id := "p1", tool := "tasks_create", args := JVal.obj [],
    params_hash := "h", summary := "s", createdAt := 0,
    expiresAt := 1000, status := "pending" }

/-- Witness for C2: a record at its expiry instant is invisible to get
and removed by it. -/
theorem get_lazy_expiry_witness :
    (∀ q ∈ [c2rec], q.proposal_id = "p1" → q.expiresAt ≤ 1000) ∧
    ((psGet 1000 [c2rec] "p1").1 = none ∧
     (∀ q ∈ (psGet 1000 [c2rec] "p1").2, ¬ q.proposal_id = "p1")) :=
  ⟨by decide, get_lazy_expiry 1000 [c2rec] "p1" (by decide)⟩

/-- Claim C4: when a write tool is called with one or more required
fields missing (undefined, null or empty string), dispatch returns a
validation error whose message joins every missing field, and the
proposal store is left unchanged; the missing list is exactly the
required keys whose value is missing. -/
theorem write_validation_names_all (ctx : ServerCtx) (now : Nat) (pid : String)
    (execOut : ExecOutcome) (toolName : String) (args : JVal) (st : PStore)
    (required : List String)
    (hallow : toolName ∈ ctx.allowedTools)
    (hcat : pLookup ctx.toolsCatalog toolName = some required)
    (hwrite : toolName ∈ ctx.writeTools)
    (hmiss : ¬ validateRequiredFields required args = []) :
    handleTool ctx now pid execOut toolName args st =
      (.errorRes ("Missing required fields: " ++
          String.intercalate ", " (validateRequiredFields required args)) 400, st) ∧
    (∀ k, k ∈ validateRequiredFields required args ↔
      (k ∈ required ∧ isMissingField (jGet args k) = true)) := by
  constructor
  · have hne : (validateRequiredFields required args).isEmpty = false := by
      cases h : validateRequiredFields required args with
      | nil => exact absurd h hmiss
      | cons a l => simp
    cases hd : ctx.dryRun <;> simp [handleTool, hallow, hcat, hwrite, hd, hne]
  · intro k
    simp [validateRequiredFields, List.mem_filter]

/-- Witness for C4: tasks_create with an empty title and a null
dueDateTime reports both fields and creates nothing. -/
theorem write_validation_names_all_witness :
    ("tasks_create" ∈ (serverCtx false).allowedTools ∧
     pLookup (serverCtx false).toolsCatalog "tasks_create" = some ["title", "dueDateTime"] ∧
     "tasks_create" ∈ (serverCtx false).writeTools ∧
     ¬ validateRequiredFields ["title", "dueDateTime"]
        (.obj [("title", .str ""), ("dueDateTime", .jnull)]) = []) ∧
    (handleTool (serverCtx false) 0 "p1" (.ok .jnull) "tasks_create"
        (.obj [("title", .str ""), ("dueDateTime", .jnull)]) [] =
      (.errorRes ("Missing required fields: " ++
          String.intercalate ", " (validateRequiredFields ["title", "dueDateTime"]
            (.obj [("title", .str ""), ("dueDateTime", .jnull)]))) 400, []) ∧
     (∀ k, k ∈ validateRequiredFields ["title", "dueDateTime"]
          (.obj [("title", .str ""), ("dueDateTime", .jnull)]) ↔
        (k ∈ ["title", "dueDateTime"] ∧
         isMissingField (jGet (.obj [("title", .str ""), ("dueDateTime", .jnull)]) k) = true))) :=
  ⟨⟨by decide, rfl, by decide, by decide⟩,
    write_validation_names_all (serverCtx false) 0 "p1" (.ok .jnull) "tasks_create"
      (.obj [("title", .str ""), ("dueDateTime", .jnull)]) [] ["title", "dueDateTime"]
      (by decide) rfl (by decide) (by decide)⟩

/-- Claim C6: persisting the store and reloading the snapshot yields
exactly the records whose expiresAt has not yet passed, with identical
fields; and the snapshot write goes to a temporary location first, the
destination file only ever holding the old or the new complete
document. -/
theorem persist_load_roundtrip (s : List StoredProposal) (ts : String)
    (now : Nat) (fs : FSState)
    (hids : ∀ p ∈ s, ¬ p.proposal_id = "") :
    psLoad now (safeWriteJson fs (psPersist s ts)).main =
      s.filter (fun p => decide (now < p.expiresAt)) ∧
    (fsWriteTmp fs (psPersist s ts)).main = fs.main ∧
    (safeWriteJson fs (psPersist s ts)).main = some (psPersist s ts) := by
  refine ⟨?_, rfl, rfl⟩
  show (psPersist s ts).proposals.filter _ = _
  exact List.filter_congr (fun p hp => by simp [psPersist, hids p hp])

/-- Concrete records used by the C6 witness: one already expired at the
reload time, one still live. -/
def c6a : StoredProposal :=
  { proposal_id := "a", tool := "t1", args := JVal.obj [],
    params_hash := "h1", summary := "s1", createdAt := 0,
    expiresAt := 500, status := "pending" }

def c6b : StoredProposal :=
  { proposal_id := "b", tool := "t2", args := JVal.obj [],
    params_hash := "h2", summary := "s2", createdAt := 0,
    expiresAt := 5000, status := "pending" }

def c6fs : FSState := { main := none, tmp := none }

/-- Witness for C6: of two persisted records, reload at a later time
keeps only the unexpired one, fields intact. -/
theorem persist_load_roundtrip_witness :
    (∀ p ∈ [c6a, c6b], ¬ p.proposal_id = "") ∧
    (psLoad 1000 (safeWriteJson c6fs (psPersist [c6a, c6b] "2026-01-01")).main =
      List.filter (fun p => decide (1000 < p.expiresAt)) [c6a, c6b] ∧
     (fsWriteTmp c6fs (psPersist [c6a, c6b] "2026-01-01")).main = none ∧
     (safeWriteJson c6fs (psPersist [c6a, c6b] "2026-01-01")).main =
        some (psPersist [c6a, c6b] "2026-01-01")) :=
  ⟨by decide, persist_load_roundtrip [c6a, c6b] "2026-01-01" 1000 c6fs (by decide)⟩

/-- C7 as stated is false: with TTL 3000 ms (the spec's own 3-second
scenario), the scheduled sweep interval is max(10000, 1500) = 10000 ms,
which exceeds half the TTL. -/
theorem sweep_interval_counterexample :
    ¬ sweepIntervalMs 3000 ≤ 3000 / 2 := by decide

/-- Amended C7: the sweep interval is max(10000 ms, ⌊TTL/2⌋), hence at
most half the TTL whenever the TTL is at least 20000 ms; each sweep run
deletes exactly the records whose expiresAt has passed, whether or not
they were ever read (both for the server map sweep and the
ProposalStore sweep). -/
theorem sweep_interval_amended (ttlMs : Nat) (h : 20000 ≤ ttlMs) :
    sweepIntervalMs ttlMs ≤ ttlMs / 2 ∧
    (∀ (now : Nat) (st : PStore) (kv : String × SrvProposal),
      kv ∈ cleanupProposals now st ↔ (kv ∈ st ∧ now < kv.2.expiresAt)) ∧
    (∀ (now : Nat) (s : List StoredProposal) (q : StoredProposal),
      q ∈ psCleanup now s ↔ (q ∈ s ∧ now < q.expiresAt)) := by
  refine ⟨?_, ?_, ?_⟩
  · show max 10000 (ttlMs / 2) ≤ ttlMs / 2
    omega
  · intro now st kv
    simp [cleanupProposals, List.mem_filter, Nat.not_le]
  · intro now s q
    simp [psCleanup, List.mem_filter, Nat.not_le]

/-- Witness for amended C7 at TTL exactly 20000 ms and a one-record
expired store. -/
theorem sweep_interval_amended_witness :
    (20000 ≤ 20000 ∧ sweepIntervalMs 20000 ≤ 20000 / 2) ∧
    ((c6a ∈ psCleanup 1000 [c6a]) ↔ (c6a ∈ [c6a] ∧ 1000 < c6a.expiresAt)) :=
  ⟨⟨le_refl _, (sweep_interval_amended 20000 (le_refl _)).1⟩,
    (sweep_interval_amended 20000 (le_refl _)).2.2 1000 [c6a] c6a⟩

/-- Specification comparison definition, modelled from the spec's words
"builds summary from the sorted argument key list": like summarizeArgs
but with the keys sorted lexicographically.  Compared against the
source's summarizeArgs, which joins keys in insertion order. -/
def summarizeArgsSortedSpec (args : JVal) : String :=
  match args with
  | .obj kvs =>
      if kvs.isEmpty then "no parameters"
      else "fields: " ++ String.intercalate ", " (sortKeys (kvs.map (fun kv => kv.1)))
  | .arr xs =>
      if xs.isEmpty then "no parameters"
      else "fields: " ++ String.intercalate ", " ((List.range xs.length).map toString)
  | _ => "no parameters"
where
  lt (a b : String) : Bool := ltChars a.data b.data
  ltChars : List Char → List Char → Bool
    | [], [] => false
    | [], _ :: _ => true
    | _ :: _, [] => false
    | a :: as, b :: bs => if a < b then true else if b < a then false else ltChars as bs
  insertKey (k : String) : List String → List String
    | [] => [k]
    | x :: xs => if lt k x then k :: x :: xs else x :: insertKey k xs
  sortKeys : List String → List String
    | [] => []
    | x :: xs => insertKey x (sortKeys xs)

/-- C8 as stated is false: the summary joins the argument keys in object
insertion order, so keys inserted as b then a appear as "b, a", not in
sorted order. -/
theorem summary_sorted_counterexample :
    summarizeArgs (.obj [("b", .num 1), ("a", .num 2)]) = "fields: b, a" ∧
    summarizeArgsSortedSpec (.obj [("b", .num 1), ("a", .num 2)]) = "fields: a, b" ∧
    ¬ summarizeArgs (.obj [("b", .num 1), ("a", .num 2)]) =
        summarizeArgsSortedSpec (.obj [("b", .num 1), ("a", .num 2)]) := by
  refine ⟨rfl, rfl, by decide⟩

/-- Amended C8: the proposal summary is built from the argument keys in
the object's insertion order (Object.keys order), not sorted; the
created proposal's summary is the tool name followed by that key
listing. -/
theorem summary_insertion_order (kvs : List (String × JVal)) (h : ¬ kvs = [])
    (ctx : ServerCtx) (now : Nat) (pid : String) (toolName : String) :
    summarizeArgs (.obj kvs) =
      "fields: " ++ String.intercalate ", " (kvs.map (fun kv => kv.1)) ∧
    (createProposal ctx now pid toolName (.obj kvs)).summary =
      toolName ++ " (" ++ summarizeArgs (.obj kvs) ++ ")" := by
  have hne : kvs.isEmpty = false := by
    cases kvs with
    | nil => exact absurd rfl h
    | cons a l => simp
  exact ⟨by simp [summarizeArgs, hne], rfl⟩

/-- Witness for amended C8 on the two-key object inserted as b then a. -/
theorem summary_insertion_order_witness :
    (¬ ([("b", JVal.num 1), ("a", JVal.num 2)] = ([] : List (String × JVal)))) ∧
    (summarizeArgs (.obj [("b", .num 1), ("a", .num 2)]) =
      "fields: " ++ String.intercalate ", "
        ([("b", JVal.num 1), ("a", JVal.num 2)].map (fun kv => kv.1)) ∧
     (createProposal (serverCtx false) 0 "p1" "tasks_create"
        (.obj [("b", .num 1), ("a", .num 2)])).summary =
      "tasks_create" ++ " (" ++ summarizeArgs (.obj [("b", .num 1), ("a", .num 2)]) ++ ")") :=
  ⟨by simp, summary_insertion_order [("b", .num 1), ("a", .num 2)] (by simp)
    (serverCtx false) 0 "p1" "tasks_create"⟩

/-- Claim C9: whatever the outcome of the best-effort follow-up task
creation (success, failure or throw), the caller receives the blocked
result with status blocked_sensitive; the task_created flag records
whether the follow-up succeeded, and the message is always one of the
two fixed-form texts, which are functions of that flag alone and carry
no scanner internals. -/
theorem blocked_despite_followup_failure :
    ∀ (dryRun : Bool) (outcome : FollowupOutcome),
      (handleSensitiveFirewall dryRun outcome).status = "blocked_sensitive" ∧
      (handleSensitiveFirewall dryRun outcome).reason = "phi_pii_detected" ∧
      ((handleSensitiveFirewall dryRun outcome).message = firewallMessageCreated ∨
       (handleSensitiveFirewall dryRun outcome).message = firewallMessageFailed) ∧
      (handleSensitiveFirewall dryRun .threw).task_created = false ∧
      (handleSensitiveFirewall dryRun (.okRes false)).task_created = false ∧
      (handleSensitiveFirewall false (.okRes true)).task_created = true ∧
      (handleSensitiveFirewall dryRun outcome).message =
        (if (handleSensitiveFirewall dryRun outcome).task_created then
          firewallMessageCreated else firewallMessageFailed) := by
  intro dryRun outcome
  cases outcome with
  | okRes b =>
      cases dryRun <;> cases b <;>
        simp [handleSensitiveFirewall, buildFirewallResponse, triggerFirewallTask]
  | threw =>
      cases dryRun <;>
        simp [handleSensitiveFirewall, buildFirewallResponse, triggerFirewallTask]

/-- Claim C10: a required field whose value is the number 0 or the
boolean false is treated as present — validation misses only undefined,
null and empty-string values — so such arguments pass write validation
and a proposal is created and stored. -/
theorem falsy_present_passes (ctx : ServerCtx) (now : Nat) (pid : String)
    (execOut : ExecOutcome) (toolName : String) (args : JVal) (st : PStore)
    (required : List String)
    (hallow : toolName ∈ ctx.allowedTools)
    (hcat : pLookup ctx.toolsCatalog toolName = some required)
    (hwrite : toolName ∈ ctx.writeTools)
    (hdry : ctx.dryRun = false)
    (hnomiss : validateRequiredFields required args = []) :
    handleTool ctx now pid execOut toolName args st =
      (.proposed pid toolName (ctx.hashParams args)
        (toolName ++ " (" ++ summarizeArgs args ++ ")") (now + ctx.ttlMs),
       st ++ [(pid, createProposal ctx now pid toolName args)]) ∧
    (∀ (k : String) (v : JVal), jGet args k = some v →
      (v = .num 0 ∨ v = .jbool false) → ¬ k ∈ validateRequiredFields required args) := by
  constructor
  · simp [handleTool, hallow, hcat, hwrite, hdry, hnomiss, createProposal]
  · intro k v hv hfalsy hk
    have := (List.mem_filter.mp hk).2
    rcases hfalsy with h0 | h0 <;> simp [hv, h0, isMissingField] at this

/-- Witness for C10: tasks_create with title 0 and dueDateTime false
passes validation and yields a stored proposal. -/
theorem falsy_present_passes_witness :
    ("tasks_create" ∈ (serverCtx false).allowedTools ∧
     pLookup (serverCtx false).toolsCatalog "tasks_create" = some ["title", "dueDateTime"] ∧
     "tasks_create" ∈ (serverCtx false).writeTools ∧
     (serverCtx false).dryRun = false ∧
     validateRequiredFields ["title", "dueDateTime"]
        (.obj [("title", .num 0), ("dueDateTime", .jbool false)]) = []) ∧
    (handleTool (serverCtx false) 0 "p1" (.ok .jnull) "tasks_create"
        (.obj [("title", .num 0), ("dueDateTime", .jbool false)]) [] =
      (.proposed "p1" "tasks_create"
          ((serverCtx false).hashParams (.obj [("title", .num 0), ("dueDateTime", .jbool false)]))
          ("tasks_create" ++ " (" ++
            summarizeArgs (.obj [("title", .num 0), ("dueDateTime", .jbool false)]) ++ ")")
          (0 + (serverCtx false).ttlMs),
        [] ++ [("p1", createProposal (serverCtx false) 0 "p1" "tasks_create"
          (.obj [("title", .num 0), ("dueDateTime", .jbool false)]))]) ∧
     (∀ (k : String) (v : JVal),
        jGet (.obj [("title", .num 0), ("dueDateTime", .jbool false)]) k = some v →
        (v = .num 0 ∨ v = .jbool false) →
        ¬ k ∈ validateRequiredFields ["title", "dueDateTime"]
            (.obj [("title", .num 0), ("dueDateTime", .jbool false)]))) :=
  ⟨⟨by decide, rfl, by decide, rfl, rfl⟩,
    falsy_present_passes (serverCtx false) 0 "p1" (.ok .jnull) "tasks_create"
      (.obj [("title", .num 0), ("dueDateTime", .jbool false)]) []
      ["title", "dueDateTime"] (by decide) rfl (by decide) rfl rfl⟩

/-! ### Matcher completeness kit

Membership lemmas used to construct witnesses of `reMatch` and
`reSearch` for the proximity patterns. -/

/-- Last character of a consumed chunk, defaulting to the incoming
previous character (how the matcher threads boundary context). -/
def lastOpt (prev : Option Char) (cs : List Char) : Option Char :=
  cs.foldl (fun _ c => some c) prev

/-- Is the position before this list a non-word position? -/
def headNonWord : List Char → Bool
  | [] => true
  | c :: _ => !isWordChar c

def optNonWord : Option Char → Bool
  | none => true
  | some c => !isWordChar c

lemma lastOpt_nil (prev : Option Char) : lastOpt prev [] = prev := rfl

lemma lastOpt_cons (prev : Option Char) (c : Char) (cs : List Char) :
    lastOpt prev (c :: cs) = lastOpt (some c) cs := rfl

lemma lastOpt_append (prev : Option Char) (l1 l2 : List Char) :
    lastOpt prev (l1 ++ l2) = lastOpt (lastOpt prev l1) l2 := by
  simp [lastOpt, List.foldl_append]

lemma exists_lastOpt_of_ne_nil :
    ∀ (cs : List Char), ¬ cs = [] → ∀ (prev : Option Char),
      ∃ c ∈ cs, lastOpt prev cs = some c
  | [], h, _ => absurd rfl h
  | [c], _, _ => ⟨c, by simp, rfl⟩
  | c :: d :: cs'', _, prev => by
      obtain ⟨e, he, hlast⟩ := exists_lastOpt_of_ne_nil (d :: cs'') (by simp) (some c)
      exact ⟨e, List.mem_cons_of_mem c he, hlast⟩

lemma isWordChar_of_isDigitChar {c : Char} (h : isDigitChar c = true) :
    isWordChar c = true := by
  simp only [isDigitChar, Bool.and_eq_true] at h
  simp [isWordChar, h.1, h.2]

lemma mem_reMatch_eps (prev : Option Char) (s : List Char) :
    (prev, s) ∈ reMatch .eps prev s := by simp [reMatch]

lemma mem_reMatch_cls {p : Char → Bool} {c : Char} (hc : p c = true)
    (prev : Option Char) (rest : List Char) :
    (some c, rest) ∈ reMatch (.cls p) prev (c :: rest) := by
  simp [reMatch, hc]

lemma mem_reMatch_cat {a b : RE} {prev : Option Char} {s : List Char}
    {st st' : Option Char × List Char}
    (h1 : st ∈ reMatch a prev s) (h2 : st' ∈ reMatch b st.1 st.2) :
    st' ∈ reMatch (.cat a b) prev s := by
  simp only [reMatch, List.mem_flatMap]
  exact ⟨st, h1, h2⟩

lemma mem_reMatch_alt_left {a b : RE} {prev : Option Char} {s : List Char}
    {st : Option Char × List Char} (h : st ∈ reMatch a prev s) :
    st ∈ reMatch (.alt a b) prev s := by
  simp only [reMatch, List.mem_append]
  exact Or.inl h

lemma mem_reMatch_alt_right {a b : RE} {prev : Option Char} {s : List Char}
    {st : Option Char × List Char} (h : st ∈ reMatch b prev s) :
    st ∈ reMatch (.alt a b) prev s := by
  simp only [reMatch, List.mem_append]
  exact Or.inr h

lemma mem_reMatch_wb {prev : Option Char} {s : List Char}
    (h : atBoundary prev s = true) : (prev, s) ∈ reMatch .wb prev s := by
  simp [reMatch, h]

lemma mem_reMatch_litCI (kw : List Char) (hkw : ∀ c ∈ kw, c.toLower = c)
    (prev : Option Char) (rest : List Char) :
    (lastOpt prev kw, rest) ∈ reMatch (litCIChars kw) prev (kw ++ rest) := by
  induction kw generalizing prev with
  | nil => simpa [litCIChars, lastOpt_nil] using mem_reMatch_eps prev rest
  | cons c cs ih =>
      rw [lastOpt_cons]
      refine mem_reMatch_cat
        (mem_reMatch_cls (by simp [hkw c (by simp)]) prev (cs ++ rest)) ?_
      exact ih (fun d hd => hkw d (by simp [hd])) (some c)

lemma mem_reMatch_repExact {p : Char → Bool} (ds : List Char)
    (hd : ∀ c ∈ ds, p c = true) (prev : Option Char) (rest : List Char) :
    (lastOpt prev ds, rest) ∈ reMatch (repExactCls p ds.length) prev (ds ++ rest) := by
  induction ds generalizing prev with
  | nil => simpa [repExactCls, lastOpt_nil] using mem_reMatch_eps prev rest
  | cons c cs ih =>
      rw [lastOpt_cons]
      show _ ∈ reMatch (.cat (.cls p) (repExactCls p cs.length)) prev (c :: (cs ++ rest))
      refine mem_reMatch_cat
        (mem_reMatch_cls (hd c (by simp)) prev (cs ++ rest)) ?_
      exact ih (fun d hdd => hd d (by simp [hdd])) (some c)

lemma mem_reMatch_upTo {p : Char → Bool} (ds : List Char) (n : Nat)
    (hn : ds.length ≤ n) (hd : ∀ c ∈ ds, p c = true)
    (prev : Option Char) (rest : List Char) :
    (lastOpt prev ds, rest) ∈ reMatch (upToCls p n) prev (ds ++ rest) := by
  induction ds generalizing prev n with
  | nil =>
      cases n with
      | zero => simpa [upToCls, lastOpt_nil] using mem_reMatch_eps prev rest
      | succ k =>
          rw [lastOpt_nil]
          show _ ∈ reMatch (.alt .eps (.cat (.cls p) (upToCls p k))) prev rest
          exact mem_reMatch_alt_left (mem_reMatch_eps prev rest)
  | cons c cs ih =>
      cases n with
      | zero => simp at hn
      | succ k =>
          rw [lastOpt_cons]
          show _ ∈ reMatch (.alt .eps (.cat (.cls p) (upToCls p k))) prev (c :: (cs ++ rest))
          refine mem_reMatch_alt_right
            (mem_reMatch_cat
              (mem_reMatch_cls (hd c (by simp)) prev (cs ++ rest)) ?_)
          exact ih k (by simpa using hn) (fun d hdd => hd d (by simp [hdd])) (some c)

lemma mem_reMatch_repRange {p : Char → Bool} (ds : List Char) (lo hi : Nat)
    (h1 : lo ≤ ds.length) (h2 : ds.length ≤ hi) (hd : ∀ c ∈ ds, p c = true)
    (prev : Option Char) (rest : List Char) :
    (lastOpt prev ds, rest) ∈ reMatch (repRangeCls p lo hi) prev (ds ++ rest) := by
  have hsplit : ds = ds.take lo ++ ds.drop lo := (List.take_append_drop lo ds).symm
  have htlen : (ds.take lo).length = lo := by
    simp [List.length_take, Nat.min_eq_left h1]
  have hdlen : (ds.drop lo).length ≤ hi - lo := by
    simp only [List.length_drop]
    omega
  rw [hsplit, lastOpt_append, List.append_assoc]
  show _ ∈ reMatch (.cat (repExactCls p lo) (upToCls p (hi - lo))) prev _
  have hx := mem_reMatch_repExact (ds.take lo)
    (fun c hc => hd c (List.mem_of_mem_take hc)) prev (ds.drop lo ++ rest)
  rw [htlen] at hx
  refine mem_reMatch_cat hx ?_
  exact mem_reMatch_upTo (ds.drop lo) (hi - lo) hdlen
    (fun c hc => hd c (List.mem_of_mem_drop hc)) _ rest

lemma reSearch_of_match (r : RE) (pre s : List Char) (prev : Option Char)
    (st : Option Char × List Char) (h : st ∈ reMatch r (lastOpt prev pre) s) :
    reSearch r prev (pre ++ s) = true := by
  induction pre generalizing prev with
  | nil =>
      rw [lastOpt_nil] at h
      have hne : ¬ reMatch r prev s = [] := List.ne_nil_of_mem h
      cases s with
      | nil => simpa [reSearch, List.isEmpty_iff] using hne
      | cons c s' => simp [reSearch, List.isEmpty_iff, hne]
  | cons c pre' ih =>
      rw [lastOpt_cons] at h
      simp only [List.cons_append, reSearch, Bool.or_eq_true]
      exact Or.inr (ih (some c) h)

lemma atBoundary_true_left {o : Option Char} {c : Char} {rest : List Char}
    (h1 : optNonWord o = true) (h2 : isWordChar c = true) :
    atBoundary o (c :: rest) = true := by
  cases o with
  | none => simp [atBoundary, h2]
  | some d =>
      have : isWordChar d = false := by simpa [optNonWord] using h1
      simp [atBoundary, this, h2]

lemma atBoundary_true_right {c : Char} {rest : List Char}
    (h1 : isWordChar c = true) (h2 : headNonWord rest = true) :
    atBoundary (some c) rest = true := by
  cases rest with
  | nil => simp [atBoundary, h1]
  | cons d rest' =>
      have : isWordChar d = false := by simpa [headNonWord] using h2
      simp [atBoundary, h1, this]

lemma stringMk_eq_empty_iff (l : List Char) : String.mk l = "" ↔ l = [] :=
  ⟨fun h => congrArg String.data h, fun h => by rw [h]⟩

lemma containsSensitiveText_of_ssnProx (t : String)
    (h : hasKeywordProximity t SSN_KEYWORDS ssnNumberAlts 24 = true) :
    containsSensitiveText t = true := by
  have ht : ¬ t = "" := by
    intro he; rw [he] at h; simp [hasKeywordProximity] at h
  unfold containsSensitiveText
  rw [if_neg ht]
  cases h1 : PHI_PATTERNS.any (fun rx => reTest rx t) <;>
    cases h2 : hasKeywordProximity t DOB_KEYWORDS dobDateAlts 24 <;> simp [h]

lemma containsSensitiveText_of_dobProx (t : String)
    (h : hasKeywordProximity t DOB_KEYWORDS dobDateAlts 24 = true) :
    containsSensitiveText t = true := by
  have ht : ¬ t = "" := by
    intro he; rw [he] at h; simp [hasKeywordProximity] at h
  unfold containsSensitiveText
  rw [if_neg ht]
  cases h1 : PHI_PATTERNS.any (fun rx => reTest rx t) <;> simp [h]

lemma prox_of_fwd (t : String) (kws : List String) (alts : List RE) (kw : String)
    (hkw : kw ∈ kws) (ht : ¬ t = "")
    (h : reTest (forwardRE kw 24 alts) t = true) :
    hasKeywordProximity t kws alts 24 = true := by
  unfold hasKeywordProximity
  rw [if_neg ht]
  exact List.any_eq_true.mpr ⟨kw, hkw, by simp [h]⟩

lemma prox_of_back (t : String) (kws : List String) (alts : List RE) (kw : String)
    (hkw : kw ∈ kws) (ht : ¬ t = "")
    (h : reTest (backwardRE kw 24 alts) t = true) :
    hasKeywordProximity t kws alts 24 = true := by
  unfold hasKeywordProximity
  rw [if_neg ht]
  exact List.any_eq_true.mpr ⟨kw, hkw, by simp [h]⟩

lemma ssn_kw_facts :
    ∀ kw ∈ SSN_KEYWORDS, (¬ kw.data = []) ∧ ∀ ch ∈ kw.data, ch.toLower = ch := by
  decide

lemma dob_kw_facts :
    ∀ kw ∈ DOB_KEYWORDS, (¬ kw.data = []) ∧ ∀ ch ∈ kw.data, ch.toLower = ch := by
  decide

lemma stringMk_ne_empty_mid {pre x rest : List Char} (hx : ¬ x = []) :
    ¬ String.mk (pre ++ (x ++ rest)) = "" := by
  rw [stringMk_eq_empty_iff]
  intro h0
  rcases List.append_eq_nil.mp h0 with ⟨-, h2⟩
  rcases List.append_eq_nil.mp h2 with ⟨h3, -⟩
  exact hx h3

/-- The dashed SSN value pattern matches at a non-word position given
three, two and four digits separated by dashes and a non-word (or end)
position after. -/
lemma mem_reMatch_ssnDashed (a b c post : List Char) (prev : Option Char)
    (hprev : optNonWord prev = true)
    (ha : a.length = 3) (hb : b.length = 2) (hc : c.length = 4)
    (hdig : ∀ x ∈ a ++ b ++ c, isDigitChar x = true)
    (hpost : headNonWord post = true) :
    ((lastOpt (some '-') c, post) : Option Char × List Char) ∈
      reMatch ssnDashed prev (a ++ ('-' :: (b ++ ('-' :: (c ++ post))))) := by
  have hdigA : ∀ x ∈ a, isDigitChar x = true := fun x hx => hdig x (by simp [hx])
  have hdigB : ∀ x ∈ b, isDigitChar x = true := fun x hx => hdig x (by simp [hx])
  have hdigC : ∀ x ∈ c, isDigitChar x = true := fun x hx => hdig x (by simp [hx])
  have hcne : ¬ c = [] := by intro h0; rw [h0] at hc; simp at hc
  obtain ⟨cl, hclmem, hcl⟩ := exists_lastOpt_of_ne_nil c hcne (some '-')
  obtain ⟨a0, a', rfl⟩ : ∃ a0 a', a = a0 :: a' := by
    cases a with
    | nil => simp at ha
    | cons x xs => exact ⟨x, xs, rfl⟩
  show _ ∈ reMatch (.cat .wb (.cat (repExactCls isDigitChar 3) (.cat dashCh
    (.cat (repExactCls isDigitChar 2) (.cat dashCh
      (.cat (repExactCls isDigitChar 4) .wb)))))) prev _
  refine mem_reMatch_cat (mem_reMatch_wb ?_) ?_
  · exact atBoundary_true_left hprev
      (isWordChar_of_isDigitChar (hdigA a0 (by simp)))
  · have h3 := mem_reMatch_repExact (a0 :: a') hdigA prev
      ('-' :: (b ++ ('-' :: (c ++ post))))
    rw [ha] at h3
    refine mem_reMatch_cat h3 ?_
    refine mem_reMatch_cat (mem_reMatch_cls (by decide) _ _) ?_
    have h2 := mem_reMatch_repExact b hdigB (some '-') ('-' :: (c ++ post))
    rw [hb] at h2
    refine mem_reMatch_cat h2 ?_
    refine mem_reMatch_cat (mem_reMatch_cls (by decide) _ _) ?_
    have h4 := mem_reMatch_repExact c hdigC (some '-') post
    rw [hc] at h4
    refine mem_reMatch_cat h4 ?_
    rw [hcl]
    exact mem_reMatch_wb (atBoundary_true_right
      (isWordChar_of_isDigitChar (hdigC cl hclmem)) hpost)

/-- The nine-digit SSN value pattern matches at a non-word position
given nine digits and a non-word (or end) position after. -/
lemma mem_reMatch_ssnNine (d9 post : List Char) (prev : Option Char)
    (hprev : optNonWord prev = true) (h9 : d9.length = 9)
    (hdig : ∀ x ∈ d9, isDigitChar x = true)
    (hpost : headNonWord post = true) :
    ((lastOpt prev d9, post) : Option Char × List Char) ∈
      reMatch ssnNine prev (d9 ++ post) := by
  have hne : ¬ d9 = [] := by intro h0; rw [h0] at h9; simp at h9
  obtain ⟨dl, hdlmem, hdl⟩ := exists_lastOpt_of_ne_nil d9 hne prev
  obtain ⟨d0, d', rfl⟩ : ∃ d0 d', d9 = d0 :: d' := by
    cases d9 with
    | nil => simp at h9
    | cons x xs => exact ⟨x, xs, rfl⟩
  show _ ∈ reMatch (.cat .wb (.cat (repExactCls isDigitChar 9) .wb)) prev _
  refine mem_reMatch_cat (mem_reMatch_wb ?_) ?_
  · exact atBoundary_true_left hprev
      (isWordChar_of_isDigitChar (hdig d0 (by simp)))
  · have h1 := mem_reMatch_repExact (d0 :: d') hdig prev post
    rw [h9] at h1
    refine mem_reMatch_cat h1 ?_
    rw [hdl]
    exact mem_reMatch_wb (atBoundary_true_right
      (isWordChar_of_isDigitChar (hdig dl hdlmem)) hpost)

/-- The DOB date value pattern (one or two digits, separator, one or two
digits, separator, two to four digits, both ends at word boundaries)
matches at a non-word position. -/
lemma mem_reMatch_dobDate (u v w post : List Char) (s1 s2 : Char) (prev : Option Char)
    (hprev : optNonWord prev = true)
    (hu1 : 1 ≤ u.length) (hu2 : u.length ≤ 2)
    (hv1 : 1 ≤ v.length) (hv2 : v.length ≤ 2)
    (hw1 : 2 ≤ w.length) (hw2 : w.length ≤ 4)
    (hdig : ∀ x ∈ u ++ v ++ w, isDigitChar x = true)
    (hs1 : isSlashDash s1 = true) (hs2 : isSlashDash s2 = true)
    (hpost : headNonWord post = true) :
    ((lastOpt (some s2) w, post) : Option Char × List Char) ∈
      reMatch (.cat .wb (.cat (repRangeCls isDigitChar 1 2) (.cat (.cls isSlashDash)
        (.cat (repRangeCls isDigitChar 1 2) (.cat (.cls isSlashDash)
          (.cat (repRangeCls isDigitChar 2 4) .wb))))))
        prev (u ++ (s1 :: (v ++ (s2 :: (w ++ post))))) := by
  have hdigU : ∀ x ∈ u, isDigitChar x = true := fun x hx => hdig x (by simp [hx])
  have hdigV : ∀ x ∈ v, isDigitChar x = true := fun x hx => hdig x (by simp [hx])
  have hdigW : ∀ x ∈ w, isDigitChar x = true := fun x hx => hdig x (by simp [hx])
  have hwne : ¬ w = [] := by intro h0; rw [h0] at hw1; simp at hw1
  obtain ⟨wl, hwlmem, hwl⟩ := exists_lastOpt_of_ne_nil w hwne (some s2)
  obtain ⟨u0, u', rfl⟩ : ∃ u0 u', u = u0 :: u' := by
    cases u with
    | nil => simp at hu1
    | cons x xs => exact ⟨x, xs, rfl⟩
  refine mem_reMatch_cat (mem_reMatch_wb ?_) ?_
  · exact atBoundary_true_left hprev
      (isWordChar_of_isDigitChar (hdigU u0 (by simp)))
  · refine mem_reMatch_cat
      (mem_reMatch_repRange (u0 :: u') 1 2 hu1 hu2 hdigU _ _) ?_
    refine mem_reMatch_cat (mem_reMatch_cls hs1 _ _) ?_
    refine mem_reMatch_cat
      (mem_reMatch_repRange v 1 2 hv1 hv2 hdigV _ _) ?_
    refine mem_reMatch_cat (mem_reMatch_cls hs2 _ _) ?_
    refine mem_reMatch_cat (mem_reMatch_repRange w 2 4 hw1 hw2 hdigW (some s2) post) ?_
    rw [hwl]
    exact mem_reMatch_wb (atBoundary_true_right
      (isWordChar_of_isDigitChar (hdigW wl hwlmem)) hpost)

/-- Forward proximity, SSN category: any keyword, then a window of at
most 24 arbitrary characters ending in a non-word character, then the
dashed value. -/
lemma fwd_ssn_dashed_search (kw : String) (hk : ∀ ch ∈ kw.data, ch.toLower = ch)
    (pre mid post a b c : List Char) (m : Char)
    (hm : isWordChar m = false) (hmid : mid.length ≤ 23)
    (ha : a.length = 3) (hb : b.length = 2) (hc : c.length = 4)
    (hdig : ∀ x ∈ a ++ b ++ c, isDigitChar x = true)
    (hpost : headNonWord post = true) :
    reSearch (forwardRE kw 24 ssnNumberAlts) none
      (pre ++ (kw.data ++ ((mid ++ [m]) ++
        (a ++ ('-' :: (b ++ ('-' :: (c ++ post)))))))) = true := by
  have hval := mem_reMatch_ssnDashed a b c post (some m)
    (by simp [optNonWord, hm]) ha hb hc hdig hpost
  have hwin := mem_reMatch_upTo (p := fun _ => true) (mid ++ [m]) 24
    (by simp; omega) (fun x _ => rfl)
    (lastOpt (lastOpt none pre) kw.data)
    (a ++ ('-' :: (b ++ ('-' :: (c ++ post)))))
  rw [lastOpt_append] at hwin
  have hmem : ((lastOpt (some '-') c, post) : Option Char × List Char) ∈
      reMatch (forwardRE kw 24 ssnNumberAlts) (lastOpt none pre)
        (kw.data ++ ((mid ++ [m]) ++
          (a ++ ('-' :: (b ++ ('-' :: (c ++ post))))))) := by
    show _ ∈ reMatch (.alt (RE.cat (litCI kw) (.cat (windowRE 24) ssnDashed))
      (.alt ssnNine never)) (lastOpt none pre) _
    exact mem_reMatch_alt_left
      (mem_reMatch_cat (mem_reMatch_litCI kw.data hk _ _)
        (mem_reMatch_cat hwin hval))
  exact reSearch_of_match _ pre _ none _ hmem

/-- Backward proximity, SSN category: the nine-digit value, then a
window starting with a non-word character, then any keyword. -/
lemma back_ssn_nine_search (kw : String) (hk : ∀ ch ∈ kw.data, ch.toLower = ch)
    (pre d9 mid2 post : List Char) (mc : Char)
    (hpre : optNonWord (lastOpt none pre) = true)
    (h9 : d9.length = 9) (hdig : ∀ x ∈ d9, isDigitChar x = true)
    (hmc : isWordChar mc = false) (hmid : mid2.length ≤ 23) :
    reSearch (backwardRE kw 24 ssnNumberAlts) none
      (pre ++ (d9 ++ ((mc :: mid2) ++ (kw.data ++ post)))) = true := by
  have hval := mem_reMatch_ssnNine d9 ((mc :: mid2) ++ (kw.data ++ post))
    (lastOpt none pre) hpre h9 hdig (by simp [headNonWord, hmc])
  have hwin := mem_reMatch_upTo (p := fun _ => true) (mc :: mid2) 24
    (by simp; omega) (fun x _ => rfl) (lastOpt (lastOpt none pre) d9)
    (kw.data ++ post)
  have hmem : ((lastOpt (lastOpt (lastOpt (lastOpt none pre) d9)
        (mc :: mid2)) kw.data, post) : Option Char × List Char) ∈
      reMatch (backwardRE kw 24 ssnNumberAlts) (lastOpt none pre)
        (d9 ++ ((mc :: mid2) ++ (kw.data ++ post))) := by
    show _ ∈ reMatch (.alt ssnDashed (.cat ssnNine (.cat (windowRE 24) (litCI kw))))
      (lastOpt none pre) _
    exact mem_reMatch_alt_right
      (mem_reMatch_cat hval
        (mem_reMatch_cat hwin (mem_reMatch_litCI kw.data hk _ _)))
  exact reSearch_of_match _ pre _ none _ hmem

/-- Forward proximity, DOB category: any keyword, then a window ending
in a non-word character, then the date value. -/
lemma fwd_dob_search (kw : String) (hk : ∀ ch ∈ kw.data, ch.toLower = ch)
    (pre mid post u v w : List Char) (m s1 s2 : Char)
    (hm : isWordChar m = false) (hmid : mid.length ≤ 23)
    (hu1 : 1 ≤ u.length) (hu2 : u.length ≤ 2)
    (hv1 : 1 ≤ v.length) (hv2 : v.length ≤ 2)
    (hw1 : 2 ≤ w.length) (hw2 : w.length ≤ 4)
    (hdig : ∀ x ∈ u ++ v ++ w, isDigitChar x = true)
    (hs1 : isSlashDash s1 = true) (hs2 : isSlashDash s2 = true)
    (hpost : headNonWord post = true) :
    reSearch (forwardRE kw 24 dobDateAlts) none
      (pre ++ (kw.data ++ ((mid ++ [m]) ++
        (u ++ (s1 :: (v ++ (s2 :: (w ++ post)))))))) = true := by
  have hval := mem_reMatch_dobDate u v w post s1 s2 (some m)
    (by simp [optNonWord, hm]) hu1 hu2 hv1 hv2 hw1 hw2 hdig hs1 hs2 hpost
  have hwin := mem_reMatch_upTo (p := fun _ => true) (mid ++ [m]) 24
    (by simp; omega) (fun x _ => rfl)
    (lastOpt (lastOpt none pre) kw.data)
    (u ++ (s1 :: (v ++ (s2 :: (w ++ post)))))
  rw [lastOpt_append] at hwin
  have hmem : ((lastOpt (some s2) w, post) : Option Char × List Char) ∈
      reMatch (forwardRE kw 24 dobDateAlts) (lastOpt none pre)
        (kw.data ++ ((mid ++ [m]) ++
          (u ++ (s1 :: (v ++ (s2 :: (w ++ post))))))) := by
    show _ ∈ reMatch (.alt (RE.cat (litCI kw) (.cat (windowRE 24)
      (.cat .wb (.cat (repRangeCls isDigitChar 1 2) (.cat (.cls isSlashDash)
        (.cat (repRangeCls isDigitChar 1 2) (.cat (.cls isSlashDash)
          (.cat (repRangeCls isDigitChar 2 4) .wb)))))))) never)
      (lastOpt none pre) _
    exact mem_reMatch_alt_left
      (mem_reMatch_cat (mem_reMatch_litCI kw.data hk _ _)
        (mem_reMatch_cat hwin hval))
  exact reSearch_of_match _ pre _ none _ hmem

/-- Backward proximity, DOB category: the date value, then a window
starting with a non-word character, then any keyword. -/
lemma back_dob_search (kw : String) (hk : ∀ ch ∈ kw.data, ch.toLower = ch)
    (pre u v w mid2 post : List Char) (s1 s2 mc : Char)
    (hpre : optNonWord (lastOpt none pre) = true)
    (hu1 : 1 ≤ u.length) (hu2 : u.length ≤ 2)
    (hv1 : 1 ≤ v.length) (hv2 : v.length ≤ 2)
    (hw1 : 2 ≤ w.length) (hw2 : w.length ≤ 4)
    (hdig : ∀ x ∈ u ++ v ++ w, isDigitChar x = true)
    (hs1 : isSlashDash s1 = true) (hs2 : isSlashDash s2 = true)
    (hmc : isWordChar mc = false) (hmid : mid2.length ≤ 23) :
    reSearch (backwardRE kw 24 dobDateAlts) none
      (pre ++ (u ++ (s1 :: (v ++ (s2 :: (w ++ ((mc :: mid2) ++
        (kw.data ++ post)))))))) = true := by
  have hval := mem_reMatch_dobDate u v w ((mc :: mid2) ++ (kw.data ++ post)) s1 s2
    (lastOpt none pre) hpre hu1 hu2 hv1 hv2 hw1 hw2 hdig hs1 hs2
    (by simp [headNonWord, hmc])
  have hwin := mem_reMatch_upTo (p := fun _ => true) (mc :: mid2) 24
    (by simp; omega) (fun x _ => rfl) (lastOpt (some s2) w) (kw.data ++ post)
  have hmem : ((lastOpt (lastOpt (lastOpt (some s2) w) (mc :: mid2)) kw.data, post) :
        Option Char × List Char) ∈
      reMatch (backwardRE kw 24 dobDateAlts) (lastOpt none pre)
        (u ++ (s1 :: (v ++ (s2 :: (w ++ ((mc :: mid2) ++
          (kw.data ++ post))))))) := by
    show _ ∈ reMatch (.cat (.cat .wb (.cat (repRangeCls isDigitChar 1 2)
      (.cat (.cls isSlashDash) (.cat (repRangeCls isDigitChar 1 2)
        (.cat (.cls isSlashDash) (.cat (repRangeCls isDigitChar 2 4) .wb))))))
      (.cat (windowRE 24) (litCI kw))) (lastOpt none pre) _
    exact mem_reMatch_cat hval
      (mem_reMatch_cat hwin (mem_reMatch_litCI kw.data hk _ _))
  exact reSearch_of_match _ pre _ none _ hmem

/-- A bare dashed SSN-shaped value matches the backward SSN regex with
no keyword anywhere: its first top-level alternative is the dashed
value pattern alone. -/
lemma bare_dashed_search (pre post a b c : List Char)
    (hpre : optNonWord (lastOpt none pre) = true)
    (ha : a.length = 3) (hb : b.length = 2) (hc : c.length = 4)
    (hdig : ∀ x ∈ a ++ b ++ c, isDigitChar x = true)
    (hpost : headNonWord post = true) :
    reSearch (backwardRE "ssn" 24 ssnNumberAlts) none
      (pre ++ (a ++ ('-' :: (b ++ ('-' :: (c ++ post)))))) = true := by
  have hval := mem_reMatch_ssnDashed a b c post (lastOpt none pre)
    hpre ha hb hc hdig hpost
  have hmem : ((lastOpt (some '-') c, post) : Option Char × List Char) ∈
      reMatch (backwardRE "ssn" 24 ssnNumberAlts) (lastOpt none pre)
        (a ++ ('-' :: (b ++ ('-' :: (c ++ post))))) := by
    show _ ∈ reMatch (.alt ssnDashed (.cat ssnNine (.cat (windowRE 24) (litCI "ssn"))))
      (lastOpt none pre) _
    exact mem_reMatch_alt_left hval
  exact reSearch_of_match _ pre _ none _ hmem

/-- A bare nine-digit value matches the forward SSN regex with no
keyword anywhere: its second top-level alternative is the nine-digit
value pattern alone. -/
lemma bare_nine_search (pre post d9 : List Char)
    (hpre : optNonWord (lastOpt none pre) = true)
    (h9 : d9.length = 9) (hdig : ∀ x ∈ d9, isDigitChar x = true)
    (hpost : headNonWord post = true) :
    reSearch (forwardRE "ssn" 24 ssnNumberAlts) none
      (pre ++ (d9 ++ post)) = true := by
  have hval := mem_reMatch_ssnNine d9 post (lastOpt none pre) hpre h9 hdig hpost
  have hmem : ((lastOpt (lastOpt none pre) d9, post) : Option Char × List Char) ∈
      reMatch (forwardRE "ssn" 24 ssnNumberAlts) (lastOpt none pre)
        (d9 ++ post) := by
    show _ ∈ reMatch (.alt (RE.cat (litCI "ssn") (.cat (windowRE 24) ssnDashed))
      (.alt ssnNine never)) (lastOpt none pre) _
    exact mem_reMatch_alt_right (mem_reMatch_alt_left hval)
  exact reSearch_of_match _ pre _ none _ hmem

/-- C5 as stated is false in both directions.  First, the scanner never
tests for bearer tokens: "Bearer abc123xyztoken" matches BEARER_RE (the
bearer-token-like shape, present in the source only inside the
redaction helpers), yet the scan of a payload containing it returns
clear.  Second, the clear clause fails: in the final payload the
keyword ssn has no qualifying value within the 24-character window (the
dashed value sits 49 characters after it) and no PHI pattern matches
(fourth conjunct), yet the scan returns blocked, because the
concatenated backward SSN regex contains the dashed value shape as a
bare top-level alternative. -/
theorem scan_bearer_counterexample :
    reTest bearerPat "Bearer abc123xyztoken" = true ∧
    containsSensitivePayload (JVal.obj [("token", JVal.str "Bearer abc123xyztoken")]) = false ∧
    containsSensitiveText "Bearer abc123xyztoken" = false ∧
    (∀ rx ∈ PHI_PATTERNS,
      reTest rx "ssn pending, client will call the office later with 123-45-6789" = false) ∧
    containsSensitivePayload (JVal.obj [("note",
      JVal.str "ssn pending, client will call the office later with 123-45-6789")]) = true :=
  ⟨by decide, by decide, by decide, by decide, by decide⟩

/-- Amended C5: every restricted-category keyword within the
24-character window of a matching value blocks, in both orders — each
SSN keyword before a dashed value and after a nine-digit value, each
DOB keyword before and after a date-shaped value; a dashed SSN-shaped
or bare nine-digit value anywhere blocks with no keyword required
(alternation precedence in the concatenated pattern), which also covers
the remaining keyword/value arrangements of the SSN category; a keyword
with no qualifying value and no other pattern content is not by itself
a trigger, exhibited by the final clear conjunct.  Bearer-token-like
strings are not a blocking trigger (see the counterexample). -/
theorem scan_proximity_amended :
    (∀ kw ∈ SSN_KEYWORDS, ∀ (pre mid post a b c : List Char) (m : Char),
      isWordChar m = false → mid.length ≤ 23 →
      a.length = 3 → b.length = 2 → c.length = 4 →
      (∀ x ∈ a ++ b ++ c, isDigitChar x = true) →
      headNonWord post = true →
      containsSensitiveText (String.mk (pre ++ (kw.data ++ ((mid ++ [m]) ++
        (a ++ ('-' :: (b ++ ('-' :: (c ++ post))))))))) = true) ∧
    (∀ kw ∈ SSN_KEYWORDS, ∀ (pre d9 mid2 post : List Char) (mc : Char),
      optNonWord (lastOpt none pre) = true →
      d9.length = 9 → (∀ x ∈ d9, isDigitChar x = true) →
      isWordChar mc = false → mid2.length ≤ 23 →
      containsSensitiveText (String.mk (pre ++ (d9 ++ ((mc :: mid2) ++
        (kw.data ++ post))))) = true) ∧
    (∀ kw ∈ DOB_KEYWORDS, ∀ (pre mid post u v w : List Char) (m s1 s2 : Char),
      isWordChar m = false → mid.length ≤ 23 →
      1 ≤ u.length → u.length ≤ 2 → 1 ≤ v.length → v.length ≤ 2 →
      2 ≤ w.length → w.length ≤ 4 →
      (∀ x ∈ u ++ v ++ w, isDigitChar x = true) →
      isSlashDash s1 = true → isSlashDash s2 = true →
      headNonWord post = true →
      containsSensitiveText (String.mk (pre ++ (kw.data ++ ((mid ++ [m]) ++
        (u ++ (s1 :: (v ++ (s2 :: (w ++ post))))))))) = true) ∧
    (∀ kw ∈ DOB_KEYWORDS, ∀ (pre u v w mid2 post : List Char) (s1 s2 mc : Char),
      optNonWord (lastOpt none pre) = true →
      1 ≤ u.length → u.length ≤ 2 → 1 ≤ v.length → v.length ≤ 2 →
      2 ≤ w.length → w.length ≤ 4 →
      (∀ x ∈ u ++ v ++ w, isDigitChar x = true) →
      isSlashDash s1 = true → isSlashDash s2 = true →
      isWordChar mc = false → mid2.length ≤ 23 →
      containsSensitiveText (String.mk (pre ++ (u ++ (s1 :: (v ++ (s2 :: (w ++
        ((mc :: mid2) ++ (kw.data ++ post))))))))) = true) ∧
    (∀ (pre post a b c : List Char),
      optNonWord (lastOpt none pre) = true →
      a.length = 3 → b.length = 2 → c.length = 4 →
      (∀ x ∈ a ++ b ++ c, isDigitChar x = true) →
      headNonWord post = true →
      containsSensitiveText (String.mk (pre ++ (a ++ ('-' :: (b ++
        ('-' :: (c ++ post))))))) = true) ∧
    (∀ (pre post d9 : List Char),
      optNonWord (lastOpt none pre) = true →
      d9.length = 9 → (∀ x ∈ d9, isDigitChar x = true) →
      headNonWord post = true →
      containsSensitiveText (String.mk (pre ++ (d9 ++ post))) = true) ∧
    containsSensitiveText "ssn will be provided later" = false := by
  refine ⟨?_, ?_, ?_, ?_, ?_, ?_, by decide⟩
  · intro kw hkw pre mid post a b c m hm hmid ha hb hc hdig hpost
    obtain ⟨hkne, hklower⟩ := ssn_kw_facts kw hkw
    exact containsSensitiveText_of_ssnProx _
      (prox_of_fwd _ _ _ kw hkw (stringMk_ne_empty_mid hkne)
        (fwd_ssn_dashed_search kw hklower pre mid post a b c m hm hmid
          ha hb hc hdig hpost))
  · intro kw hkw pre d9 mid2 post mc hpre h9 hdig hmc hmid
    obtain ⟨-, hklower⟩ := ssn_kw_facts kw hkw
    have hne : ¬ d9 = [] := by intro h0; rw [h0] at h9; simp at h9
    exact containsSensitiveText_of_ssnProx _
      (prox_of_back _ _ _ kw hkw (stringMk_ne_empty_mid hne)
        (back_ssn_nine_search kw hklower pre d9 mid2 post mc hpre h9 hdig hmc hmid))
  · intro kw hkw pre mid post u v w m s1 s2 hm hmid hu1 hu2 hv1 hv2 hw1 hw2
      hdig hs1 hs2 hpost
    obtain ⟨hkne, hklower⟩ := dob_kw_facts kw hkw
    exact containsSensitiveText_of_dobProx _
      (prox_of_fwd _ _ _ kw hkw (stringMk_ne_empty_mid hkne)
        (fwd_dob_search kw hklower pre mid post u v w m s1 s2 hm hmid
          hu1 hu2 hv1 hv2 hw1 hw2 hdig hs1 hs2 hpost))
  · intro kw hkw pre u v w mid2 post s1 s2 mc hpre hu1 hu2 hv1 hv2 hw1 hw2
      hdig hs1 hs2 hmc hmid
    obtain ⟨-, hklower⟩ := dob_kw_facts kw hkw
    have hne : ¬ u = [] := by intro h0; rw [h0] at hu1; simp at hu1
    exact containsSensitiveText_of_dobProx _
      (prox_of_back _ _ _ kw hkw (stringMk_ne_empty_mid hne)
        (back_dob_search kw hklower pre u v w mid2 post s1 s2 mc hpre
          hu1 hu2 hv1 hv2 hw1 hw2 hdig hs1 hs2 hmc hmid))
  · intro pre post a b c hpre ha hb hc hdig hpost
    have hne : ¬ a = [] := by intro h0; rw [h0] at ha; simp at ha
    exact containsSensitiveText_of_ssnProx _
      (prox_of_back _ _ _ "ssn" (by decide) (stringMk_ne_empty_mid hne)
        (bare_dashed_search pre post a b c hpre ha hb hc hdig hpost))
  · intro pre post d9 hpre h9 hdig hpost
    have hne : ¬ d9 = [] := by intro h0; rw [h0] at h9; simp at h9
    exact containsSensitiveText_of_ssnProx _
      (prox_of_fwd _ _ _ "ssn" (by decide) (stringMk_ne_empty_mid hne)
        (bare_nine_search pre post d9 hpre h9 hdig hpost))

/-- Witness for amended C5: "ssn 123-45-6789" (keyword, one-space
window, dashed value) is blocked, through the first conjunct at the
keyword ssn. -/
theorem scan_proximity_amended_witness :
    ("ssn" ∈ SSN_KEYWORDS ∧ isWordChar ' ' = false ∧
     ([] : List Char).length ≤ 23 ∧
     (['1', '2', '3'] : List Char).length = 3 ∧
     (['4', '5'] : List Char).length = 2 ∧
     (['6', '7', '8', '9'] : List Char).length = 4 ∧
     (∀ x ∈ (['1', '2', '3'] ++ ['4', '5'] ++ ['6', '7', '8', '9'] : List Char),
        isDigitChar x = true) ∧
     headNonWord ([] : List Char) = true) ∧
    containsSensitiveText (String.mk (([] : List Char) ++ ("ssn".data ++
      ((([] : List Char) ++ [' ']) ++ (['1', '2', '3'] ++ ('-' :: (['4', '5'] ++
        ('-' :: (['6', '7', '8', '9'] ++ ([] : List Char)))))))))) = true :=
  ⟨⟨by decide, by decide, by decide, rfl, rfl, rfl, by decide, rfl⟩,
    scan_proximity_amended.1 "ssn" (by decide) [] [] [] ['1', '2', '3'] ['4', '5']
      ['6', '7', '8', '9'] ' ' (by decide) (by decide) rfl rfl rfl (by decide) rfl⟩

/-- Concrete arguments payload used by the C3 theorems: an unknown tool
name with sensitive content in the arguments. -/
def c3args : JVal := .obj [("note", .str "passport number attached")]

/-- C3 as stated is false: the firewall runs before the allowlist check,
so a tools/call naming a tool outside the allowlist with a sensitive
payload returns the blocked result, not the claimed not-found error. -/
theorem dispatch_order_counterexample :
    containsSensitivePayload c3args = true ∧
    ALLOWED_TOOLS.contains "mystery_tool" = false ∧
    toolsCall (serverCtx false) (.okRes true) 0 "p1" (.ok .jnull)
        "mystery_tool" c3args [] =
      (.blockedContent (buildFirewallResponse true), []) := by
  refine ⟨by decide, by decide, ?_⟩
  have hs : containsSensitivePayload c3args = true := by decide
  simp [toolsCall, hs]
  rfl

/-- Amended C3: the Content Scanner gate precedes the unknown-tool
check: a sensitive payload yields the blocked result whatever the tool
name; only for clear payloads does an unknown name yield the not-found
error, and within dispatch the allowlist check still precedes the
catalog lookup, so a catalog entry lacking allowlist membership resolves
to unavailable. -/
theorem scanner_precedes_allowlist (ctx : ServerCtx) (fw : FollowupOutcome)
    (now : Nat) (pid : String) (execOut : ExecOutcome) (name : String)
    (args : JVal) (st : PStore) (hname : ¬ name = "") :
    (containsSensitivePayload args = true →
      toolsCall ctx fw now pid execOut name args st =
        (.blockedContent (handleSensitiveFirewall ctx.dryRun fw), st)) ∧
    (containsSensitivePayload args = false → ¬ name ∈ ctx.allowedTools →
      toolsCall ctx fw now pid execOut name args st =
        (.toolRes (.errorRes ("Tool not available: " ++ name ++
          " is not in the allowed tool catalog") 404), st)) ∧
    (containsSensitivePayload args = false → name ∈ ctx.allowedTools →
      pLookup ctx.toolsCatalog name = none →
      toolsCall ctx fw now pid execOut name args st =
        (.toolRes (.errorRes ("Unknown tool: " ++ name) 404), st)) := by
  refine ⟨?_, ?_, ?_⟩
  · intro hs
    simp [toolsCall, hname, hs]
  · intro hs hall
    simp [toolsCall, hname, hs, handleTool, hall]
  · intro hs hall hcat
    simp [toolsCall, hname, hs, handleTool, hall, hcat]

/-- Witness for amended C3: the sensitive-payload branch at the concrete
unknown tool name. -/
theorem scanner_precedes_allowlist_witness :
    (¬ "mystery_tool" = "") ∧ containsSensitivePayload c3args = true ∧
    toolsCall (serverCtx false) (.okRes true) 0 "p1" (.ok .jnull)
        "mystery_tool" c3args [] =
      (.blockedContent (handleSensitiveFirewall false (.okRes true)), []) :=
  ⟨by simp, by decide,
    (scanner_precedes_allowlist (serverCtx false) (.okRes true) 0 "p1"
      (.ok .jnull) "mystery_tool" c3args [] (by simp)).1 (by decide)⟩

end PCC
